import Mathlib

/-!
# Dashboard / IoT_ESP32: the DHT11 poll loop

Shallow embedding of `src/IoT_ESP32/src/main.cpp`.

The sketch is a straight line of calls into two collaborators, the serial console and the
DHT sensor driver, plus `delay`.  Every such call is an observable action; the embedding
threads a `World` (the driver's state and the log of actions performed so far) through
`setup` and `loop`, statement by statement.

The driver (`DHT.h`) and the Arduino core are libraries outside the repository.  The global
object `DHT dht(DHT_PIN, DHT_TYPE)` is therefore a parameter `d`: an arbitrary state type with
arbitrary `begin`, `readHumidity`, `readTemperature` and `computeHeatIndex`.  The sketch does
no arithmetic on a `float`; it only tests `isnan`, passes the value back to the driver, or
prints it, so a `float` is kept as its bit pattern and the text `Serial.print(float)` makes
of it is a parameter `fmt` of the console.
-/

namespace Dashboard

/-! ## Data model -/

/-- A C++ `float`, held as its IEEE-754 binary32 bit pattern (sign, 8 exponent bits, 23
fraction bits).  The sketch never computes with it. -/
structure CFloat where
  bits : Nat
deriving DecidableEq, Repr

/-- The `isnan` test of `<math.h>`: exponent field all ones and fraction field non-zero. -/
def isnan (x : CFloat) : Bool :=
  x.bits / 2 ^ 23 % 2 ^ 8 == 255 && x.bits % 2 ^ 23 != 0

/-- `#define DHT_PIN 14`. -/
def DHT_PIN : Nat := 14

/-- One observable action of the sketch: a call on `Serial`, a call on `dht`, or `delay`. -/
inductive Action where
  | serialBegin (baud : Nat)
  | dhtBegin
  | readHumidity
  | readTemperature (S : Bool)
  | computeHeatIndex (temperature percentHumidity : CFloat) (isFahrenheit : Bool)
  | print (s : String)
  | printFloat (x : CFloat)
  | println (s : String)
  | delay (ms : Nat)
deriving DecidableEq, Repr

/-- The sensor driver object `dht`, a black box with its own state `σ`.  Every method may
change that state and returns whatever it likes. -/
structure DHT (σ : Type) where
  begin : σ → σ
  readHumidity : σ → CFloat × σ
  readTemperature : Bool → σ → CFloat × σ
  computeHeatIndex : CFloat → CFloat → Bool → σ → CFloat × σ

/-- Everything a statement of the sketch can touch: the driver's state and the actions
performed so far, oldest first. -/
structure World (σ : Type) where
  sensor : σ
  log : List Action

/-- Modelled from the spec: `DHT.h` is not in the repository, so the default of the third
parameter of `computeHeatIndex` is taken from the spec, which has the two-argument call
produce the Fahrenheit-scaled result ("the default flag"). -/
def defaultIsFahrenheit : Bool := true

/-- Modelled from the spec: `DHT.h` is not in the repository.  `readTemperature(true)` is the
Fahrenheit read and `readTemperature()` the Celsius read (so the source's comments and the
spec), hence the default of the scale parameter is `false`. -/
def defaultS : Bool := false

/-! ## The collaborators' calls as state transformers -/

/-- Append one action to the log. -/
def emit {σ : Type} (a : Action) (w : World σ) : World σ :=
  ⟨w.sensor, w.log ++ [a]⟩

/-- Call `Serial.begin(baud)`. -/
def Serial.begin {σ : Type} (baud : Nat) (w : World σ) : World σ :=
  emit (Action.serialBegin baud) w

/-- Call `Serial.print(const char*)`. -/
def Serial.print {σ : Type} (s : String) (w : World σ) : World σ :=
  emit (Action.print s) w

/-- Call `Serial.print(float)`. -/
def Serial.printFloat {σ : Type} (x : CFloat) (w : World σ) : World σ :=
  emit (Action.printFloat x) w

/-- Call `Serial.println(const char*)`. -/
def Serial.println {σ : Type} (s : String) (w : World σ) : World σ :=
  emit (Action.println s) w

/-- Call `delay(ms)`. -/
def delay {σ : Type} (ms : Nat) (w : World σ) : World σ :=
  emit (Action.delay ms) w

/-- Call `dht.begin()`. -/
def dht.begin {σ : Type} (d : DHT σ) (w : World σ) : World σ :=
  emit Action.dhtBegin ⟨d.begin w.sensor, w.log⟩

/-- Call `dht.readHumidity()`. -/
def dht.readHumidity {σ : Type} (d : DHT σ) (w : World σ) : CFloat × World σ :=
  ((d.readHumidity w.sensor).1, emit Action.readHumidity ⟨(d.readHumidity w.sensor).2, w.log⟩)

/-- Call `dht.readTemperature(S)`. -/
def dht.readTemperature {σ : Type} (d : DHT σ) (S : Bool) (w : World σ) : CFloat × World σ :=
  ((d.readTemperature S w.sensor).1,
    emit (Action.readTemperature S) ⟨(d.readTemperature S w.sensor).2, w.log⟩)

/-- Call `dht.computeHeatIndex(temperature, percentHumidity, isFahrenheit)`. -/
def dht.computeHeatIndex {σ : Type} (d : DHT σ) (temperature percentHumidity : CFloat)
    (isFahrenheit : Bool) (w : World σ) : CFloat × World σ :=
  ((d.computeHeatIndex temperature percentHumidity isFahrenheit w.sensor).1,
    emit (Action.computeHeatIndex temperature percentHumidity isFahrenheit)
      ⟨(d.computeHeatIndex temperature percentHumidity isFahrenheit w.sensor).2, w.log⟩)

/-! ## The sketch -/

/-- The function `setup()` of `main.cpp`. -/
def setup {σ : Type} (d : DHT σ) (w : World σ) : World σ :=
  -- Initialize serial communication
  let w := Serial.begin 9600 w
  -- Initialize DHT sensor
  let w := dht.begin d w
  let w := Serial.println "ESP32 DHT11 Temperature & Humidity Sensor" w
  let w := Serial.println "==========================================" w
  delay 2000 w

/-- The function `loop()` of `main.cpp`.  The early `return` of the failure branch is the
`then` arm; the rest of the body is the `else` arm. -/
def loop {σ : Type} (d : DHT σ) (w : World σ) : World σ :=
  -- Read humidity and temperature
  let (humidity, w) := dht.readHumidity d w
  let (temperature, w) := dht.readTemperature d defaultS w
  let (temperatureF, w) := dht.readTemperature d true w
  -- Check if readings are valid
  if isnan humidity || isnan temperature then
    let w := Serial.println "Failed to read from DHT sensor!" w
    delay 2000 w
  else
    -- Calculate heat index (feels like temperature)
    let (heatIndex, w) := dht.computeHeatIndex d temperatureF humidity defaultIsFahrenheit w
    let (heatIndexC, w) := dht.computeHeatIndex d temperature humidity false w
    -- Print readings to Serial Monitor
    let w := Serial.println "--- Sensor Readings ---" w
    let w := Serial.print "Humidity: " w
    let w := Serial.printFloat humidity w
    let w := Serial.println " %" w
    let w := Serial.print "Temperature: " w
    let w := Serial.printFloat temperature w
    let w := Serial.println " °C" w
    let w := Serial.print "Temperature: " w
    let w := Serial.printFloat temperatureF w
    let w := Serial.println " °F" w
    let w := Serial.print "Heat Index: " w
    let w := Serial.printFloat heatIndexC w
    let w := Serial.println " °C" w
    let w := Serial.print "Heat Index: " w
    let w := Serial.printFloat heatIndex w
    let w := Serial.println " °F" w
    let w := Serial.println "" w
    -- Wait 2 seconds between readings
    delay 2000 w

/-- The function `printSensorInfo()` of `main.cpp`; nothing calls it. -/
def printSensorInfo {σ : Type} (w : World σ) : World σ :=
  let w := Serial.println "DHT11 Sensor Information:" w
  let w := Serial.println "- Temperature range: 0-50°C (±2°C accuracy)" w
  let w := Serial.println "- Humidity range: 20-90% RH (±5% accuracy)" w
  Serial.println "- Sampling rate: 1Hz (once per second)" w

/-- `n` consecutive runs of `loop()`. -/
def ticks {σ : Type} (d : DHT σ) : Nat → World σ → World σ
  | 0, w => w
  | n + 1, w => loop d (ticks d n w)

/-- The Arduino runtime: `setup()` once, then `loop()` again and again; here cut after `n`
runs of `loop()`. -/
def arduinoMain {σ : Type} (d : DHT σ) (n : Nat) (w : World σ) : World σ :=
  ticks d n (setup d w)

/-! ## Observing a run -/

/-- The actions one run of `loop()` adds to the log. -/
def tickTrace {σ : Type} (d : DHT σ) (w : World σ) : List Action :=
  (loop d w).log.drop w.log.length

/-- The actions `setup()` adds to the log. -/
def setupTrace {σ : Type} (d : DHT σ) (w : World σ) : List Action :=
  (setup d w).log.drop w.log.length

/-- The value `dht.readHumidity()` returns to a run of `loop()` that finds the driver in
state `s`. -/
def humidityOf {σ : Type} (d : DHT σ) (s : σ) : CFloat :=
  (d.readHumidity s).1

/-- The value `dht.readTemperature()` returns to that run; it is the second call on the
driver. -/
def temperatureOf {σ : Type} (d : DHT σ) (s : σ) : CFloat :=
  (d.readTemperature false (d.readHumidity s).2).1

/-- The value `dht.readTemperature(true)` returns to that run; it is the third call on the
driver. -/
def temperatureFOf {σ : Type} (d : DHT σ) (s : σ) : CFloat :=
  (d.readTemperature true (d.readTemperature false (d.readHumidity s).2).2).1

/-- The driver's state after the three reads. -/
def sensorAfterReads {σ : Type} (d : DHT σ) (s : σ) : σ :=
  (d.readTemperature true (d.readTemperature false (d.readHumidity s).2).2).2

/-- The value the first `computeHeatIndex` call of a valid run returns (Fahrenheit mode). -/
def heatIndexOf {σ : Type} (d : DHT σ) (s : σ) : CFloat :=
  (d.computeHeatIndex (temperatureFOf d s) (humidityOf d s) true (sensorAfterReads d s)).1

/-- The value the second `computeHeatIndex` call of a valid run returns (flag `false`). -/
def heatIndexCOf {σ : Type} (d : DHT σ) (s : σ) : CFloat :=
  (d.computeHeatIndex (temperatureOf d s) (humidityOf d s) false
    (d.computeHeatIndex (temperatureFOf d s) (humidityOf d s) true (sensorAfterReads d s)).2).1

/-- The validity test of `loop()` on the readings of a run started in driver state `s`. -/
def invalidSample {σ : Type} (d : DHT σ) (s : σ) : Bool :=
  isnan (humidityOf d s) || isnan (temperatureOf d s)

/-- What the serial console shows: the completed lines, oldest first, and the text already
written on the line still open. -/
structure Console where
  lines : List String
  cur : String
deriving DecidableEq, Repr

/-- Effect of one action on the console.  `fmt` is the text `Serial.print(float)` produces
(the Arduino core's number formatting, which is not part of the repository). -/
def Console.step (fmt : CFloat → String) (c : Console) : Action → Console
  | Action.print s => ⟨c.lines, c.cur ++ s⟩
  | Action.printFloat x => ⟨c.lines, c.cur ++ fmt x⟩
  | Action.println s => ⟨c.lines ++ [c.cur ++ s], ""⟩
  | _ => c

/-- The console after a sequence of actions, starting from a blank console. -/
def console (fmt : CFloat → String) (log : List Action) : Console :=
  log.foldl (Console.step fmt) ⟨[], ""⟩

/-- The action is a `delay`. -/
def Action.isDelay : Action → Bool
  | Action.delay _ => true
  | _ => false

/-- The action is a `computeHeatIndex` call. -/
def Action.isComputeHeatIndex : Action → Bool
  | Action.computeHeatIndex _ _ _ => true
  | _ => false

/-- The action is a sensor read (`readHumidity` or `readTemperature`). -/
def Action.isRead : Action → Bool
  | Action.readHumidity => true
  | Action.readTemperature _ => true
  | _ => false

/-- The action writes to the console. -/
def Action.isPrint : Action → Bool
  | Action.print _ => true
  | Action.printFloat _ => true
  | Action.println _ => true
  | _ => false

/-- The startup banner. -/
def banner : String := "ESP32 DHT11 Temperature & Humidity Sensor"

/-- The action is visible from outside: it writes to the console or it is a `delay`. -/
def Action.isOutput (a : Action) : Bool :=
  a.isPrint || a.isDelay

/-- The actions `n` consecutive runs of `loop()` add to the log. -/
def ticksTrace {σ : Type} (d : DHT σ) (n : Nat) (w : World σ) : List Action :=
  (ticks d n w).log.drop w.log.length

/-! ## Sample drivers and formats, used to run the sketch on concrete inputs -/

/-- A driver without state that answers every tick with the same five values. -/
def constDriver (h c f hi hiC : CFloat) : DHT Unit :=
  ⟨fun s => s, fun s => (h, s), fun S s => (if S then f else c, s),
    fun _ _ isF s => (if isF then hi else hiC, s)⟩

/-- A driver that replays a script of samples (humidity, Celsius, Fahrenheit), one per tick:
its state is the list of samples still to come, the Fahrenheit read moves on to the next
one, and the heat index is whatever temperature it is given. -/
def scriptDriver : DHT (List (CFloat × CFloat × CFloat)) :=
  ⟨fun s => s,
    fun s => ((s.headD (⟨0⟩, ⟨0⟩, ⟨0⟩)).1, s),
    fun S s => (if S then (s.headD (⟨0⟩, ⟨0⟩, ⟨0⟩)).2.2 else (s.headD (⟨0⟩, ⟨0⟩, ⟨0⟩)).2.1,
      if S then s.tail else s),
    fun t _ _ s => (t, s)⟩

/-- The float 45.0. -/
def f45 : CFloat := ⟨0x42340000⟩

/-- The float 50.0. -/
def f50 : CFloat := ⟨0x42480000⟩

/-- The float 22.0. -/
def f22 : CFloat := ⟨0x41b00000⟩

/-- The float nearest to 71.6. -/
def f71_6 : CFloat := ⟨0x428f3333⟩

/-- The float nearest to 70.575. -/
def f70_575 : CFloat := ⟨0x428d2666⟩

/-- The float nearest to 21.43. -/
def f21_43 : CFloat := ⟨0x41ab70a4⟩

/-- A quiet NaN. -/
def fNaN : CFloat := ⟨0x7fc00000⟩

/-- A fresh world whose script driver will deliver a valid sample, a failed one, and the
first sample again. -/
def script3 : World (List (CFloat × CFloat × CFloat)) :=
  ⟨[(f45, f22, f71_6), (f50, fNaN, fNaN), (f45, f22, f71_6)], []⟩

/-- A sample number format: the two-decimal text of the sample values above, `nan` for a
NaN, and `?` for any other value. -/
def fmtSample (x : CFloat) : String :=
  if isnan x then "nan"
  else if x = f45 then "45.00"
  else if x = f50 then "50.00"
  else if x = f22 then "22.00"
  else if x = f71_6 then "71.60"
  else if x = f70_575 then "70.58"
  else if x = f21_43 then "21.43"
  else "?"


/-! ## The trace of one run, statement by statement -/

/-- The log only grows during `loop()`. -/
theorem loop_log {σ : Type} (d : DHT σ) (w : World σ) :
    (loop d w).log = w.log ++ tickTrace d w := by
  unfold tickTrace loop
  by_cases h : (isnan (d.readHumidity w.sensor).1 ||
      isnan (d.readTemperature false (d.readHumidity w.sensor).2).1) = true <;>
    simp [dht.readHumidity, dht.readTemperature, dht.computeHeatIndex, defaultS,
      defaultIsFahrenheit, emit, Serial.println, Serial.print, Serial.printFloat, delay, h]

/-- The trace of a run whose humidity or Celsius reading is NaN. -/
theorem tickTrace_invalid {σ : Type} (d : DHT σ) (w : World σ)
    (h : invalidSample d w.sensor = true) :
    tickTrace d w = [Action.readHumidity, Action.readTemperature false,
      Action.readTemperature true, Action.println "Failed to read from DHT sensor!",
      Action.delay 2000] := by
  simp only [invalidSample, humidityOf, temperatureOf] at h
  simp [tickTrace, loop, dht.readHumidity, dht.readTemperature, defaultS, emit, h,
    Serial.println, delay]

/-- The trace of a run whose humidity and Celsius reading are both numbers. -/
theorem tickTrace_valid {σ : Type} (d : DHT σ) (w : World σ)
    (h : invalidSample d w.sensor = false) :
    tickTrace d w = [Action.readHumidity, Action.readTemperature false,
      Action.readTemperature true,
      Action.computeHeatIndex (temperatureFOf d w.sensor) (humidityOf d w.sensor) true,
      Action.computeHeatIndex (temperatureOf d w.sensor) (humidityOf d w.sensor) false,
      Action.println "--- Sensor Readings ---",
      Action.print "Humidity: ", Action.printFloat (humidityOf d w.sensor),
      Action.println " %",
      Action.print "Temperature: ", Action.printFloat (temperatureOf d w.sensor),
      Action.println " °C",
      Action.print "Temperature: ", Action.printFloat (temperatureFOf d w.sensor),
      Action.println " °F",
      Action.print "Heat Index: ", Action.printFloat (heatIndexCOf d w.sensor),
      Action.println " °C",
      Action.print "Heat Index: ", Action.printFloat (heatIndexOf d w.sensor),
      Action.println " °F",
      Action.println "", Action.delay 2000] := by
  simp only [invalidSample, humidityOf, temperatureOf] at h
  simp [tickTrace, loop, dht.readHumidity, dht.readTemperature, dht.computeHeatIndex, defaultS,
    defaultIsFahrenheit, emit, h, Serial.println, Serial.print, Serial.printFloat, delay,
    humidityOf, temperatureOf, temperatureFOf, heatIndexOf, heatIndexCOf, sensorAfterReads]

/-- The validity test is `true` exactly when one of the two tested readings is NaN. -/
theorem invalidSample_iff {σ : Type} (d : DHT σ) (s : σ) :
    invalidSample d s = true ↔
      (isnan (humidityOf d s) = true ∨ isnan (temperatureOf d s) = true) := by
  simp [invalidSample]

/-- The validity test is `false` exactly when both tested readings are numbers. -/
theorem invalidSample_false_iff {σ : Type} (d : DHT σ) (s : σ) :
    invalidSample d s = false ↔
      (isnan (humidityOf d s) = false ∧ isnan (temperatureOf d s) = false) := by
  simp [invalidSample]

/-- The trace of `setup()`. -/
theorem setupTrace_eq {σ : Type} (d : DHT σ) (w : World σ) :
    setupTrace d w = [Action.serialBegin 9600, Action.dhtBegin,
      Action.println "ESP32 DHT11 Temperature & Humidity Sensor",
      Action.println "==========================================", Action.delay 2000] := by
  simp [setupTrace, setup, Serial.begin, dht.begin, Serial.println, delay, emit]

/-- The log only grows during `setup()`. -/
theorem setup_log {σ : Type} (d : DHT σ) (w : World σ) :
    (setup d w).log = w.log ++ setupTrace d w := by
  simp [setupTrace, setup, Serial.begin, dht.begin, Serial.println, delay, emit]

/-! ## The console -/

/-- Lines already completed are never touched again. -/
theorem foldl_step_lines (fmt : CFloat → String) (t : List Action) (c : Console) :
    t.foldl (Console.step fmt) c =
      ⟨c.lines ++ (t.foldl (Console.step fmt) ⟨[], c.cur⟩).lines,
        (t.foldl (Console.step fmt) ⟨[], c.cur⟩).cur⟩ := by
  induction t generalizing c with
  | nil => simp
  | cons a t ih =>
    simp only [List.foldl_cons]
    rw [ih (Console.step fmt c a), ih (Console.step fmt ⟨[], c.cur⟩ a)]
    cases a <;> simp [Console.step]

/-- After a trace that ends at a line boundary, the console of a longer trace is the lines of
the first part followed by the console of the rest. -/
theorem console_append (fmt : CFloat → String) (a b : List Action)
    (h : (console fmt a).cur = "") :
    console fmt (a ++ b) =
      ⟨(console fmt a).lines ++ (console fmt b).lines, (console fmt b).cur⟩ := by
  unfold console at *
  rw [List.foldl_append, foldl_step_lines, h]

/-- The console of a failed run. -/
theorem console_invalid {σ : Type} (d : DHT σ) (w : World σ) (fmt : CFloat → String)
    (h : invalidSample d w.sensor = true) :
    console fmt (tickTrace d w) = ⟨["Failed to read from DHT sensor!"], ""⟩ := by
  rw [tickTrace_invalid d w h]
  simp [console, Console.step]

/-- The console of a valid run. -/
theorem console_valid {σ : Type} (d : DHT σ) (w : World σ) (fmt : CFloat → String)
    (h : invalidSample d w.sensor = false) :
    console fmt (tickTrace d w) =
      ⟨["--- Sensor Readings ---",
        "Humidity: " ++ fmt (humidityOf d w.sensor) ++ " %",
        "Temperature: " ++ fmt (temperatureOf d w.sensor) ++ " °C",
        "Temperature: " ++ fmt (temperatureFOf d w.sensor) ++ " °F",
        "Heat Index: " ++ fmt (heatIndexCOf d w.sensor) ++ " °C",
        "Heat Index: " ++ fmt (heatIndexOf d w.sensor) ++ " °F",
        ""], ""⟩ := by
  rw [tickTrace_valid d w h]
  simp [console, Console.step]

/-- A text that starts with a character other than the first character of `t` is not `t`. -/
theorem append_ne_of_head (a x b t : String) (h : a.data.head? ≠ t.data.head?)
    (ha : a.data ≠ []) : a ++ x ++ b ≠ t := by
  intro e
  apply h
  have e2 := congrArg String.data e
  simp only [String.data_append] at e2
  rw [← e2]
  cases hd : a.data with
  | nil => exact absurd hd ha
  | cons c cs => simp

/-- No line of a run of `loop()` is the startup banner, and the run ends at a line
boundary. -/
theorem console_tick_no_banner {σ : Type} (d : DHT σ) (w : World σ) (fmt : CFloat → String) :
    banner ∉ (console fmt (tickTrace d w)).lines ∧ (console fmt (tickTrace d w)).cur = "" := by
  cases h : invalidSample d w.sensor with
  | true =>
    rw [console_invalid d w fmt h]
    simp [banner]
  | false =>
    rw [console_valid d w fmt h]
    have h1 := append_ne_of_head "Humidity: " (fmt (humidityOf d w.sensor)) " %" banner
      (by decide) (by decide)
    have h2 := append_ne_of_head "Temperature: " (fmt (temperatureOf d w.sensor)) " °C" banner
      (by decide) (by decide)
    have h3 := append_ne_of_head "Temperature: " (fmt (temperatureFOf d w.sensor)) " °F" banner
      (by decide) (by decide)
    have h4 := append_ne_of_head "Heat Index: " (fmt (heatIndexCOf d w.sensor)) " °C" banner
      (by decide) (by decide)
    have h5 := append_ne_of_head "Heat Index: " (fmt (heatIndexOf d w.sensor)) " °F" banner
      (by decide) (by decide)
    refine ⟨?_, rfl⟩
    simp only [List.mem_cons, List.mem_singleton, List.not_mem_nil, or_false, not_or]
    exact ⟨by decide, fun e => h1 e.symm, fun e => h2 e.symm, fun e => h3 e.symm,
      fun e => h4 e.symm, fun e => h5 e.symm, by decide⟩


/-! ## Many runs -/

/-- The log only grows during `n` runs of `loop()`. -/
theorem ticks_log {σ : Type} (d : DHT σ) (n : Nat) (w : World σ) :
    (ticks d n w).log = w.log ++ ticksTrace d n w := by
  induction n with
  | zero => simp [ticks, ticksTrace]
  | succ n ih =>
    have h : (ticks d (n + 1) w).log = w.log ++ (ticksTrace d n w ++ tickTrace d (ticks d n w)) := by
      show (loop d (ticks d n w)).log = _
      rw [loop_log, ih, List.append_assoc]
    simp [ticksTrace, h]

/-- The trace of `n + 1` runs is the trace of `n` runs followed by the trace of one more. -/
theorem ticksTrace_succ {σ : Type} (d : DHT σ) (n : Nat) (w : World σ) :
    ticksTrace d (n + 1) w = ticksTrace d n w ++ tickTrace d (ticks d n w) := by
  have h : (ticks d (n + 1) w).log = w.log ++ (ticksTrace d n w ++ tickTrace d (ticks d n w)) := by
    show (loop d (ticks d n w)).log = _
    rw [loop_log, ticks_log, List.append_assoc]
  simp [ticksTrace, h]

/-- No line printed by any number of runs of `loop()` is the startup banner. -/
theorem console_ticks_no_banner {σ : Type} (d : DHT σ) (fmt : CFloat → String) (n : Nat)
    (w : World σ) :
    banner ∉ (console fmt (ticksTrace d n w)).lines ∧
      (console fmt (ticksTrace d n w)).cur = "" := by
  induction n with
  | zero => simp [ticksTrace, ticks, console]
  | succ n ih =>
    rw [ticksTrace_succ, console_append fmt _ _ ih.2]
    have h := console_tick_no_banner d (ticks d n w) fmt
    exact ⟨by simpa using ⟨ih.1, h.1⟩, h.2⟩


/-! ## The failure branch -/

/-- C1: when the humidity reading or the Celsius reading of a run of `loop()` is NaN, the
console shows exactly the one line "Failed to read from DHT sensor!" (so no header and no
Humidity, Temperature or Heat Index line), that `println` is the only print call of the run,
and `computeHeatIndex` is not called during the run. -/
theorem loop_invalid_prints_only_failure {σ : Type} (d : DHT σ) (w : World σ)
    (fmt : CFloat → String)
    (h : isnan (humidityOf d w.sensor) = true ∨ isnan (temperatureOf d w.sensor) = true) :
    console fmt (tickTrace d w) = ⟨["Failed to read from DHT sensor!"], ""⟩ ∧
      (tickTrace d w).filter Action.isPrint =
        [Action.println "Failed to read from DHT sensor!"] ∧
      (∀ a ∈ tickTrace d w, a.isComputeHeatIndex = false) := by
  have hi : invalidSample d w.sensor = true := (invalidSample_iff d w.sensor).2 h
  refine ⟨console_invalid d w fmt hi, ?_, ?_⟩
  · rw [tickTrace_invalid d w hi]
    rfl
  · rw [tickTrace_invalid d w hi]
    intro a ha
    simp only [List.mem_cons, List.mem_singleton, List.not_mem_nil, or_false] at ha
    rcases ha with rfl | rfl | rfl | rfl | rfl <;> rfl

/-- Scenario 2 of the spec, run through C1: humidity 50.0, temperature NaN. -/
theorem loop_invalid_prints_only_failure_witness :
    (isnan (humidityOf (constDriver f50 fNaN fNaN f70_575 f21_43) ()) = true ∨
        isnan (temperatureOf (constDriver f50 fNaN fNaN f70_575 f21_43) ()) = true) ∧
      (console fmtSample (tickTrace (constDriver f50 fNaN fNaN f70_575 f21_43) ⟨(), []⟩) =
          ⟨["Failed to read from DHT sensor!"], ""⟩ ∧
        (tickTrace (constDriver f50 fNaN fNaN f70_575 f21_43) ⟨(), []⟩).filter Action.isPrint =
          [Action.println "Failed to read from DHT sensor!"] ∧
        (∀ a ∈ tickTrace (constDriver f50 fNaN fNaN f70_575 f21_43) ⟨(), []⟩,
          a.isComputeHeatIndex = false)) :=
  ⟨Or.inr (by decide),
    loop_invalid_prints_only_failure (constDriver f50 fNaN fNaN f70_575 f21_43) ⟨(), []⟩
      fmtSample (Or.inr (by decide))⟩

/-! ## The reporting branch -/

/-- C2: when the humidity reading and the Celsius reading of a run of `loop()` are both
numbers, the console shows exactly the seven lines of the readings block, in order, the last
one empty, with nothing left on an open line; the failure line is not among them and is not
printed by any call of the run. -/
theorem loop_valid_prints_readings_block {σ : Type} (d : DHT σ) (w : World σ)
    (fmt : CFloat → String)
    (hh : isnan (humidityOf d w.sensor) = false)
    (hc : isnan (temperatureOf d w.sensor) = false) :
    console fmt (tickTrace d w) =
        ⟨["--- Sensor Readings ---",
          "Humidity: " ++ fmt (humidityOf d w.sensor) ++ " %",
          "Temperature: " ++ fmt (temperatureOf d w.sensor) ++ " °C",
          "Temperature: " ++ fmt (temperatureFOf d w.sensor) ++ " °F",
          "Heat Index: " ++ fmt (heatIndexCOf d w.sensor) ++ " °C",
          "Heat Index: " ++ fmt (heatIndexOf d w.sensor) ++ " °F",
          ""], ""⟩ ∧
      "Failed to read from DHT sensor!" ∉ (console fmt (tickTrace d w)).lines ∧
      Action.println "Failed to read from DHT sensor!" ∉ tickTrace d w := by
  have hi : invalidSample d w.sensor = false := (invalidSample_false_iff d w.sensor).2 ⟨hh, hc⟩
  refine ⟨console_valid d w fmt hi, ?_, ?_⟩
  · rw [console_valid d w fmt hi]
    have h1 := append_ne_of_head "Humidity: " (fmt (humidityOf d w.sensor)) " %"
      "Failed to read from DHT sensor!" (by decide) (by decide)
    have h2 := append_ne_of_head "Temperature: " (fmt (temperatureOf d w.sensor)) " °C"
      "Failed to read from DHT sensor!" (by decide) (by decide)
    have h3 := append_ne_of_head "Temperature: " (fmt (temperatureFOf d w.sensor)) " °F"
      "Failed to read from DHT sensor!" (by decide) (by decide)
    have h4 := append_ne_of_head "Heat Index: " (fmt (heatIndexCOf d w.sensor)) " °C"
      "Failed to read from DHT sensor!" (by decide) (by decide)
    have h5 := append_ne_of_head "Heat Index: " (fmt (heatIndexOf d w.sensor)) " °F"
      "Failed to read from DHT sensor!" (by decide) (by decide)
    simp only [List.mem_cons, List.mem_singleton, List.not_mem_nil, or_false, not_or]
    exact ⟨by decide, fun e => h1 e.symm, fun e => h2 e.symm, fun e => h3 e.symm,
      fun e => h4 e.symm, fun e => h5 e.symm, by decide⟩
  · rw [tickTrace_valid d w hi]
    simp

/-- Scenario 1 of the spec, run through C2: humidity 45.0, temperature 22.0 °C / 71.6 °F. -/
theorem loop_valid_prints_readings_block_witness :
    (isnan (humidityOf (constDriver f45 f22 f71_6 f70_575 f21_43) ()) = false ∧
        isnan (temperatureOf (constDriver f45 f22 f71_6 f70_575 f21_43) ()) = false) ∧
      console fmtSample (tickTrace (constDriver f45 f22 f71_6 f70_575 f21_43) ⟨(), []⟩) =
        ⟨["--- Sensor Readings ---", "Humidity: 45.00 %", "Temperature: 22.00 °C",
          "Temperature: 71.60 °F", "Heat Index: 21.43 °C", "Heat Index: 70.58 °F", ""], ""⟩ :=
  ⟨⟨by decide, by decide⟩,
    (loop_valid_prints_readings_block (constDriver f45 f22 f71_6 f70_575 f21_43) ⟨(), []⟩
      fmtSample (by decide) (by decide)).1⟩

/-! ## Cadence -/

/-- C3: every run of `loop()`, failed or not, performs exactly one `delay`, of 2000 ms, and
that `delay` is the last action of the run, so it comes after every print of the run. -/
theorem loop_delay_once_and_last {σ : Type} (d : DHT σ) (w : World σ) :
    (tickTrace d w).filter Action.isDelay = [Action.delay 2000] ∧
      ∃ before, tickTrace d w = before ++ [Action.delay 2000] ∧
        ∀ a ∈ before, a.isDelay = false := by
  cases hi : invalidSample d w.sensor with
  | true =>
    rw [tickTrace_invalid d w hi]
    refine ⟨rfl, [Action.readHumidity, Action.readTemperature false,
      Action.readTemperature true, Action.println "Failed to read from DHT sensor!"], rfl, ?_⟩
    intro a ha
    simp only [List.mem_cons, List.mem_singleton, List.not_mem_nil, or_false] at ha
    rcases ha with rfl | rfl | rfl | rfl <;> rfl
  | false =>
    rw [tickTrace_valid d w hi]
    refine ⟨rfl, _, (List.dropLast_append_getLast (by simp)).symm, ?_⟩
    intro a ha
    simp only [List.dropLast, List.mem_cons, List.mem_singleton, List.not_mem_nil,
      or_false] at ha
    rcases ha with rfl | rfl | rfl | rfl | rfl | rfl | rfl | rfl | rfl | rfl | rfl | rfl |
      rfl | rfl | rfl | rfl | rfl | rfl | rfl | rfl | rfl | rfl <;> rfl

/-! ## Heat index -/

/-- C4: a valid run of `loop()` calls `computeHeatIndex` exactly twice: with the Fahrenheit
reading and the humidity reading in Fahrenheit mode, and with the Celsius reading and the
humidity reading with the flag `false`.  Line 5 of the block shows the result of the call
with flag `false` with unit °C, line 6 the result of the Fahrenheit-mode call with unit °F,
and the humidity given to both calls is the one shown on the Humidity line. -/
theorem loop_valid_heat_index_calls {σ : Type} (d : DHT σ) (w : World σ)
    (fmt : CFloat → String)
    (hh : isnan (humidityOf d w.sensor) = false)
    (hc : isnan (temperatureOf d w.sensor) = false) :
    (tickTrace d w).filter Action.isComputeHeatIndex =
        [Action.computeHeatIndex (temperatureFOf d w.sensor) (humidityOf d w.sensor) true,
          Action.computeHeatIndex (temperatureOf d w.sensor) (humidityOf d w.sensor) false] ∧
      (console fmt (tickTrace d w)).lines[1]? =
        some ("Humidity: " ++ fmt (humidityOf d w.sensor) ++ " %") ∧
      (console fmt (tickTrace d w)).lines[4]? =
        some ("Heat Index: " ++
          fmt (d.computeHeatIndex (temperatureOf d w.sensor) (humidityOf d w.sensor) false
            (d.computeHeatIndex (temperatureFOf d w.sensor) (humidityOf d w.sensor) true
              (sensorAfterReads d w.sensor)).2).1 ++ " °C") ∧
      (console fmt (tickTrace d w)).lines[5]? =
        some ("Heat Index: " ++
          fmt (d.computeHeatIndex (temperatureFOf d w.sensor) (humidityOf d w.sensor) true
            (sensorAfterReads d w.sensor)).1 ++ " °F") := by
  have hi : invalidSample d w.sensor = false := (invalidSample_false_iff d w.sensor).2 ⟨hh, hc⟩
  refine ⟨?_, ?_, ?_, ?_⟩
  · rw [tickTrace_valid d w hi]
    rfl
  · rw [console_valid d w fmt hi]
    rfl
  · rw [console_valid d w fmt hi]
    rfl
  · rw [console_valid d w fmt hi]
    rfl

/-- A valid sample run through C4: the script driver's heat index is the temperature it is
given, so the two calls can be told apart on the console. -/
theorem loop_valid_heat_index_calls_witness :
    (isnan (humidityOf scriptDriver [(f45, f22, f71_6)]) = false ∧
        isnan (temperatureOf scriptDriver [(f45, f22, f71_6)]) = false) ∧
      (tickTrace scriptDriver ⟨[(f45, f22, f71_6)], []⟩).filter Action.isComputeHeatIndex =
        [Action.computeHeatIndex f71_6 f45 true, Action.computeHeatIndex f22 f45 false] ∧
      (console fmtSample (tickTrace scriptDriver ⟨[(f45, f22, f71_6)], []⟩)).lines[4]? =
        some "Heat Index: 22.00 °C" ∧
      (console fmtSample (tickTrace scriptDriver ⟨[(f45, f22, f71_6)], []⟩)).lines[5]? =
        some "Heat Index: 71.60 °F" :=
  ⟨⟨by decide, by decide⟩,
    (loop_valid_heat_index_calls scriptDriver ⟨[(f45, f22, f71_6)], []⟩ fmtSample
      (by decide) (by decide)).1,
    (loop_valid_heat_index_calls scriptDriver ⟨[(f45, f22, f71_6)], []⟩ fmtSample
      (by decide) (by decide)).2.2.1,
    (loop_valid_heat_index_calls scriptDriver ⟨[(f45, f22, f71_6)], []⟩ fmtSample
      (by decide) (by decide)).2.2.2⟩


/-! ## Startup -/

/-- C5: for every `n`, every driver and every starting state of it, the console after
`setup()` and `n` runs of `loop()` is the banner line, the rule line, and then the lines of
the `n` runs, none of which is the banner; so the banner occurs exactly once, as the very
first line, before any output of the first run.  No single run of `loop()` prints the banner
either, whatever the world it starts from. -/
theorem banner_printed_once {σ : Type} (d : DHT σ) (s : σ) (fmt : CFloat → String) (n : Nat) :
    (console fmt (arduinoMain d n ⟨s, []⟩).log).lines =
        "ESP32 DHT11 Temperature & Humidity Sensor" ::
          "==========================================" ::
          (console fmt (ticksTrace d n (setup d ⟨s, []⟩))).lines ∧
      "ESP32 DHT11 Temperature & Humidity Sensor" ∉
        (console fmt (ticksTrace d n (setup d ⟨s, []⟩))).lines ∧
      (console fmt (arduinoMain d n ⟨s, []⟩).log).lines.count
        "ESP32 DHT11 Temperature & Humidity Sensor" = 1 ∧
      (∀ w : World σ, "ESP32 DHT11 Temperature & Humidity Sensor" ∉
        (console fmt (tickTrace d w)).lines) := by
  have hlog : (arduinoMain d n ⟨s, []⟩).log =
      setupTrace d ⟨s, []⟩ ++ ticksTrace d n (setup d ⟨s, []⟩) := by
    unfold arduinoMain
    rw [ticks_log, setup_log]
    rfl
  have hsetup : console fmt (setupTrace d ⟨s, []⟩) =
      ⟨["ESP32 DHT11 Temperature & Humidity Sensor",
        "=========================================="], ""⟩ := by
    rw [setupTrace_eq]
    simp [console, Console.step]
  have hno : "ESP32 DHT11 Temperature & Humidity Sensor" ∉
      (console fmt (ticksTrace d n (setup d ⟨s, []⟩))).lines :=
    (console_ticks_no_banner d fmt n (setup d ⟨s, []⟩)).1
  have hlines : (console fmt (arduinoMain d n ⟨s, []⟩).log).lines =
      "ESP32 DHT11 Temperature & Humidity Sensor" ::
        "==========================================" ::
        (console fmt (ticksTrace d n (setup d ⟨s, []⟩))).lines := by
    rw [hlog, console_append fmt _ _ (by rw [hsetup]), hsetup]
    rfl
  refine ⟨hlines, hno, ?_, fun w => (console_tick_no_banner d w fmt).1⟩
  rw [hlines, List.count_cons_self, List.count_cons_of_ne (by decide),
    List.count_eq_zero_of_not_mem hno]

/-- C6: `setup()` performs `Serial.begin(9600)`, the driver's `begin()`, the banner line,
the rule line and a 2000 ms delay, in this order and nothing else; the console shows just
these two lines; no action of `setup()` is a sensor read; and when `loop()` runs after
`setup()`, its first read comes right after that delay. -/
theorem setup_actions_in_order {σ : Type} (d : DHT σ) (w : World σ) (fmt : CFloat → String) :
    setupTrace d w =
        [Action.serialBegin 9600, Action.dhtBegin,
          Action.println "ESP32 DHT11 Temperature & Humidity Sensor",
          Action.println "==========================================",
          Action.delay 2000] ∧
      console fmt (setupTrace d w) =
        ⟨["ESP32 DHT11 Temperature & Humidity Sensor",
          "=========================================="], ""⟩ ∧
      (∀ a ∈ setupTrace d w, a.isRead = false) ∧
      (setup d w).sensor = d.begin w.sensor ∧
      ∃ rest, (loop d (setup d w)).log =
        w.log ++ [Action.serialBegin 9600, Action.dhtBegin,
          Action.println "ESP32 DHT11 Temperature & Humidity Sensor",
          Action.println "==========================================",
          Action.delay 2000, Action.readHumidity] ++ rest := by
  refine ⟨setupTrace_eq d w, ?_, ?_, rfl, ?_⟩
  · rw [setupTrace_eq]
    simp [console, Console.step]
  · rw [setupTrace_eq]
    intro a ha
    simp only [List.mem_cons, List.mem_singleton, List.not_mem_nil, or_false] at ha
    rcases ha with rfl | rfl | rfl | rfl | rfl <;> rfl
  · rw [loop_log, setup_log, setupTrace_eq]
    cases hi : invalidSample d (setup d w).sensor with
    | true =>
      rw [tickTrace_invalid d _ hi]
      exact ⟨_, by simp; rfl⟩
    | false =>
      rw [tickTrace_valid d _ hi]
      exact ⟨_, by simp; rfl⟩


/-! ## Runs are independent of one another -/

/-- C7: take two runs of `loop()`, with any two drivers in any states and any two logs of
earlier actions.  If the driver returns the same humidity, Celsius and Fahrenheit readings
in both, and (where the readings are valid, so that it is asked) the same two heat index
results, then both runs emit the same prints and delay in the same order, and the console
shows the same lines for both. -/
theorem loop_output_depends_only_on_readings {σ₁ σ₂ : Type} (d₁ : DHT σ₁) (w₁ : World σ₁)
    (d₂ : DHT σ₂) (w₂ : World σ₂)
    (hh : humidityOf d₁ w₁.sensor = humidityOf d₂ w₂.sensor)
    (hc : temperatureOf d₁ w₁.sensor = temperatureOf d₂ w₂.sensor)
    (hf : temperatureFOf d₁ w₁.sensor = temperatureFOf d₂ w₂.sensor)
    (hi : isnan (humidityOf d₁ w₁.sensor) = false → isnan (temperatureOf d₁ w₁.sensor) = false →
      heatIndexOf d₁ w₁.sensor = heatIndexOf d₂ w₂.sensor)
    (hic : isnan (humidityOf d₁ w₁.sensor) = false →
      isnan (temperatureOf d₁ w₁.sensor) = false →
      heatIndexCOf d₁ w₁.sensor = heatIndexCOf d₂ w₂.sensor) :
    (tickTrace d₁ w₁).filter Action.isOutput = (tickTrace d₂ w₂).filter Action.isOutput ∧
      ∀ fmt : CFloat → String, console fmt (tickTrace d₁ w₁) = console fmt (tickTrace d₂ w₂) := by
  have hinv : invalidSample d₁ w₁.sensor = invalidSample d₂ w₂.sensor := by
    simp only [invalidSample, hh, hc]
  have htrace : tickTrace d₁ w₁ = tickTrace d₂ w₂ := by
    cases h1 : invalidSample d₁ w₁.sensor with
    | true =>
      rw [tickTrace_invalid d₁ w₁ h1, tickTrace_invalid d₂ w₂ (hinv ▸ h1)]
    | false =>
      have hv := (invalidSample_false_iff d₁ w₁.sensor).1 h1
      rw [tickTrace_valid d₁ w₁ h1, tickTrace_valid d₂ w₂ (hinv ▸ h1), hh, hc, hf,
        hi hv.1 hv.2, hic hv.1 hv.2]
  rw [htrace]
  exact ⟨rfl, fun _ => rfl⟩

/-- The first and the third run of one execution through C7: the script driver delivers the
same sample to both, a failed run lies between them, and the third run starts from the log
the first two have left. -/
theorem loop_output_depends_only_on_readings_witness :
    (humidityOf scriptDriver script3.sensor =
          humidityOf scriptDriver (ticks scriptDriver 2 script3).sensor ∧
        temperatureOf scriptDriver script3.sensor =
          temperatureOf scriptDriver (ticks scriptDriver 2 script3).sensor ∧
        temperatureFOf scriptDriver script3.sensor =
          temperatureFOf scriptDriver (ticks scriptDriver 2 script3).sensor ∧
        heatIndexOf scriptDriver script3.sensor =
          heatIndexOf scriptDriver (ticks scriptDriver 2 script3).sensor ∧
        heatIndexCOf scriptDriver script3.sensor =
          heatIndexCOf scriptDriver (ticks scriptDriver 2 script3).sensor) ∧
      (ticks scriptDriver 2 script3).log.length = 28 ∧
      (tickTrace scriptDriver script3).filter Action.isOutput =
        (tickTrace scriptDriver (ticks scriptDriver 2 script3)).filter Action.isOutput :=
  ⟨⟨by decide, by decide, by decide, by decide, by decide⟩, by decide,
    (loop_output_depends_only_on_readings scriptDriver script3 scriptDriver
      (ticks scriptDriver 2 script3)
      (by decide) (by decide) (by decide) (fun _ _ => by decide) (fun _ _ => by decide)).1⟩

/-! ## What the validity test looks at -/

/-- C10: a run of `loop()` prints the failure line exactly when the humidity reading or the
Celsius reading is NaN; hence two runs with the same humidity and Celsius readings fail
together or succeed together, whatever their Fahrenheit readings are.  When humidity and
Celsius are numbers and the Fahrenheit reading is NaN, the run still prints the whole
readings block and hands that NaN to `computeHeatIndex` in Fahrenheit mode. -/
theorem loop_validity_ignores_fahrenheit {σ₁ σ₂ : Type} (d₁ : DHT σ₁) (w₁ : World σ₁)
    (d₂ : DHT σ₂) (w₂ : World σ₂) (fmt : CFloat → String) :
    (Action.println "Failed to read from DHT sensor!" ∈ tickTrace d₁ w₁ ↔
        (isnan (humidityOf d₁ w₁.sensor) = true ∨ isnan (temperatureOf d₁ w₁.sensor) = true)) ∧
      (humidityOf d₁ w₁.sensor = humidityOf d₂ w₂.sensor →
        temperatureOf d₁ w₁.sensor = temperatureOf d₂ w₂.sensor →
        (Action.println "Failed to read from DHT sensor!" ∈ tickTrace d₁ w₁ ↔
          Action.println "Failed to read from DHT sensor!" ∈ tickTrace d₂ w₂)) ∧
      (isnan (humidityOf d₁ w₁.sensor) = false → isnan (temperatureOf d₁ w₁.sensor) = false →
        isnan (temperatureFOf d₁ w₁.sensor) = true →
        console fmt (tickTrace d₁ w₁) =
            ⟨["--- Sensor Readings ---",
              "Humidity: " ++ fmt (humidityOf d₁ w₁.sensor) ++ " %",
              "Temperature: " ++ fmt (temperatureOf d₁ w₁.sensor) ++ " °C",
              "Temperature: " ++ fmt (temperatureFOf d₁ w₁.sensor) ++ " °F",
              "Heat Index: " ++ fmt (heatIndexCOf d₁ w₁.sensor) ++ " °C",
              "Heat Index: " ++ fmt (heatIndexOf d₁ w₁.sensor) ++ " °F",
              ""], ""⟩ ∧
          Action.computeHeatIndex (temperatureFOf d₁ w₁.sensor) (humidityOf d₁ w₁.sensor) true ∈
            tickTrace d₁ w₁) := by
  have key : ∀ {σ : Type} (d : DHT σ) (w : World σ),
      Action.println "Failed to read from DHT sensor!" ∈ tickTrace d w ↔
        invalidSample d w.sensor = true := by
    intro σ d w
    cases hi : invalidSample d w.sensor with
    | true =>
      rw [tickTrace_invalid d w hi]
      simp
    | false =>
      rw [tickTrace_valid d w hi]
      simp
  refine ⟨(key d₁ w₁).trans (invalidSample_iff d₁ w₁.sensor), ?_, ?_⟩
  · intro hh hc
    rw [key d₁ w₁, key d₂ w₂]
    simp only [invalidSample, hh, hc]
  · intro hh hc _
    have hi : invalidSample d₁ w₁.sensor = false :=
      (invalidSample_false_iff d₁ w₁.sensor).2 ⟨hh, hc⟩
    refine ⟨console_valid d₁ w₁ fmt hi, ?_⟩
    rw [tickTrace_valid d₁ w₁ hi]
    simp

/-- A run with humidity 50.0, Celsius 22.0 and a NaN Fahrenheit reading, next to a run with
the same humidity and Celsius and Fahrenheit 71.6, through C10: neither fails, and the
first shows `nan` on both °F lines. -/
theorem loop_validity_ignores_fahrenheit_witness :
    (humidityOf scriptDriver [(f50, f22, fNaN)] = humidityOf scriptDriver [(f50, f22, f71_6)] ∧
        temperatureOf scriptDriver [(f50, f22, fNaN)] =
          temperatureOf scriptDriver [(f50, f22, f71_6)] ∧
        isnan (humidityOf scriptDriver [(f50, f22, fNaN)]) = false ∧
        isnan (temperatureOf scriptDriver [(f50, f22, fNaN)]) = false ∧
        isnan (temperatureFOf scriptDriver [(f50, f22, fNaN)]) = true) ∧
      (Action.println "Failed to read from DHT sensor!" ∈
          tickTrace scriptDriver ⟨[(f50, f22, fNaN)], []⟩ ↔
        Action.println "Failed to read from DHT sensor!" ∈
          tickTrace scriptDriver ⟨[(f50, f22, f71_6)], []⟩) ∧
      console fmtSample (tickTrace scriptDriver ⟨[(f50, f22, fNaN)], []⟩) =
        ⟨["--- Sensor Readings ---", "Humidity: 50.00 %", "Temperature: 22.00 °C",
          "Temperature: nan °F", "Heat Index: 22.00 °C", "Heat Index: nan °F", ""], ""⟩ ∧
      Action.computeHeatIndex fNaN f50 true ∈ tickTrace scriptDriver ⟨[(f50, f22, fNaN)], []⟩ :=
  ⟨⟨by decide, by decide, by decide, by decide, by decide⟩,
    (loop_validity_ignores_fahrenheit scriptDriver ⟨[(f50, f22, fNaN)], []⟩ scriptDriver
      ⟨[(f50, f22, f71_6)], []⟩ fmtSample).2.1 (by decide) (by decide),
    ((loop_validity_ignores_fahrenheit scriptDriver ⟨[(f50, f22, fNaN)], []⟩ scriptDriver
      ⟨[(f50, f22, f71_6)], []⟩ fmtSample).2.2 (by decide) (by decide) (by decide)).1,
    ((loop_validity_ignores_fahrenheit scriptDriver ⟨[(f50, f22, fNaN)], []⟩ scriptDriver
      ⟨[(f50, f22, f71_6)], []⟩ fmtSample).2.2 (by decide) (by decide) (by decide)).2⟩


end Dashboard
